import Mathlib

/-
  Verification development for the riid.me URL shortener (Go).

  Strings of the Go program are modelled as lists of characters (`GoStr`);
  all test inputs are ASCII, where Go byte semantics and character-list
  semantics coincide.  The Redis key-value store is modelled as an
  association list from code to target; Redis SET overwrites, which the
  model realises by prepending together with first-match lookup.  The
  SQLite click table is modelled as an append-ordered list of rows.
  Store transport failures (the 500 branches of the handlers) are outside
  the model: the modelled store is total.
-/

/-- Go string, modelled as a list of characters. -/
abbrev GoStr := List Char

/-- Character data of a Lean string literal, used to write `GoStr` literals. -/
def gs (s : String) : GoStr := s.data

/-- Go `strings.HasPrefix`. -/
def hasPrefixGo : GoStr → GoStr → Bool
  | _, [] => true
  | [], _ :: _ => false
  | c :: s, p :: ps => (c == p) && hasPrefixGo s ps

/-- Go `strings.HasSuffix`. -/
def hasSuffixGo (s suf : GoStr) : Bool := hasPrefixGo s.reverse suf.reverse

/-- Go `strings.TrimSpace`: remove leading and trailing whitespace. -/
def trimSpaceGo (s : GoStr) : GoStr :=
  ((s.dropWhile Char.isWhitespace).reverse.dropWhile Char.isWhitespace).reverse

/-- Go `strings.TrimPrefix`: drop the prefix when present, else unchanged. -/
def trimPrefixGo (s p : GoStr) : GoStr :=
  if hasPrefixGo s p then s.drop p.length else s

/-- Membership loop of `CreateShortURL` over `config.ValidAuthCodes`
(`for _, validCode := range ... if req.AuthCode == validCode`). -/
def containsGo : List GoStr → GoStr → Bool
  | [], _ => false
  | v :: rest, a => if a = v then true else containsGo rest a

/-- The Redis key space: live (non-expired) `code -> target` entries. -/
abbrev Store := List (GoStr × GoStr)

/-- Redis `GET` / `EXISTS`: first-match association-list lookup. -/
def storeGet : Store → GoStr → Option GoStr
  | [], _ => none
  | (k, v) :: rest, c => if k = c then some v else storeGet rest c

/-- Redis `SET`: overwrite, modelled as prepend under first-match lookup. -/
def storeSet (store : Store) (k v : GoStr) : Store := (k, v) :: store

/-- Constants of `pkg/config`: default expiration in days. -/
def DefaultExpirationDays : Int := 365

/-- Constants of `pkg/config`: maximum custom expiration in days. -/
def MaxExpirationDays : Int := 365 * 10

/-- Constants of `pkg/config`: request value meaning `never expire`. -/
def NoExpirationValue : Int := 0

/-- The configuration fields of `config.AppConfig` used by the handlers. -/
structure AppConfig where
  scheme : GoStr
  domain : GoStr
  validAuthCodes : List GoStr
deriving DecidableEq

/-- Decoded body of `POST /shorten` (`models.URLRequest`); `expirationDays`
is a pointer in Go, hence an `Option` here. -/
structure URLRequest where
  longURL : GoStr
  customHandle : GoStr
  authCode : GoStr
  expirationDays : Option Int
deriving DecidableEq

/-- The HTTP responses the modelled handlers produce. -/
inductive HResp where
  | ok (shortURL : GoStr)
  | badRequest (msg : GoStr)
  | unauthorized (msg : GoStr)
  | conflict (msg : GoStr)
  | notFound
  | redirect301 (location : GoStr)
  | redirect302 (location : GoStr)
deriving DecidableEq

/-- The short URL string built at the end of `CreateShortURL`
(`fmt.Sprintf("%s://%s/%s", scheme, domain, code)`). -/
def shortURLFor (cfg : AppConfig) (code : GoStr) : GoStr :=
  cfg.scheme ++ gs "://" ++ cfg.domain ++ gs "/" ++ code

/-- Conflict message of `CreateShortURL` for a taken handle. -/
def conflictMsg (handle : GoStr) : GoStr :=
  gs "Custom handle " ++ handle ++ gs " is already taken."

/-- NormalizeURL from `pkg/handlers` (part_003 lines 38-44): trim whitespace,
then prepend `https://` unless the URL already starts with `http://` or
`https://`. -/
def NormalizeURL (url : GoStr) : GoStr :=
  let u := trimSpaceGo url
  if hasPrefixGo u (gs "http://") = false ∧ hasPrefixGo u (gs "https://") = false then
    gs "https://" ++ u
  else u

/-- Result of one `CreateShortURL` call: the response, the store after the
call, and the TTL (in hours) passed to Redis `SET` on the success path. -/
structure CreateResult where
  resp : HResp
  store : Store
  ttlHours : Int
deriving DecidableEq

/-- CreateShortURL from `pkg/handlers` (part_003 lines 48-170), after JSON
decoding.  `generated` is the code produced by `Sid.Generate()` when no
custom handle is supplied (the shortid generator is an external library;
the model takes its output as a parameter).  Branch order follows the
source: empty URL check, then for a custom handle: empty auth code (401),
auth-code membership (401), handle length in [3,30] (400), availability
via Redis EXISTS (409), then expiration-days resolution (400 when out of
range), and finally Redis SET. -/
def CreateShortURL (cfg : AppConfig) (generated : GoStr) (req : URLRequest)
    (store : Store) : CreateResult :=
  if req.longURL = [] then
    ⟨.badRequest (gs "URL is required"), store, DefaultExpirationDays * 24⟩
  else
    let normalizedURL := NormalizeURL req.longURL
    if req.customHandle ≠ [] then
      if req.authCode = [] then
        ⟨.unauthorized (gs "Authorization code required for custom handle."),
          store, DefaultExpirationDays * 24⟩
      else if containsGo cfg.validAuthCodes req.authCode = false then
        ⟨.unauthorized (gs "Invalid authorization code."),
          store, DefaultExpirationDays * 24⟩
      else if req.customHandle.length < 3 ∨ 30 < req.customHandle.length then
        ⟨.badRequest (gs "Custom handle must be between 3 and 30 characters."),
          store, DefaultExpirationDays * 24⟩
      else if (storeGet store req.customHandle).isSome then
        ⟨.conflict (conflictMsg req.customHandle), store, DefaultExpirationDays * 24⟩
      else
        match req.expirationDays with
        | some days =>
          if days = NoExpirationValue then
            ⟨.ok (shortURLFor cfg req.customHandle),
              storeSet store req.customHandle normalizedURL, 0⟩
          else if 0 < days ∧ days ≤ MaxExpirationDays then
            ⟨.ok (shortURLFor cfg req.customHandle),
              storeSet store req.customHandle normalizedURL, days * 24⟩
          else
            ⟨.badRequest
              (gs "Expiration must be 0 (for no expiry) or between 1 and 3650 days."),
              store, DefaultExpirationDays * 24⟩
        | none =>
          ⟨.ok (shortURLFor cfg req.customHandle),
            storeSet store req.customHandle normalizedURL, DefaultExpirationDays * 24⟩
    else
      ⟨.ok (shortURLFor cfg generated),
        storeSet store generated normalizedURL, DefaultExpirationDays * 24⟩

/-- Reserved-path filter at the top of `RedirectToLongURL`
(part_003 lines 176-189). -/
def pathIsReserved (path : GoStr) : Bool :=
  (path == gs "/") || hasPrefixGo path (gs "/api/") ||
  hasPrefixGo path (gs "/static/") ||
  (path == gs "/favicon.ico") ||
  (path == gs "/health") ||
  (path == gs "/test-route") ||
  hasSuffixGo path (gs ".ico") ||
  hasSuffixGo path (gs ".png") ||
  hasSuffixGo path (gs ".jpg") ||
  hasSuffixGo path (gs ".css") ||
  hasSuffixGo path (gs ".js")

/-- One row of the SQLite `clicks` table as inserted by the redirect
handler (`INSERT INTO clicks (short_code, user_agent, referrer)`); the
timestamp column is filled by the database. -/
structure Click where
  shortCode : GoStr
  userAgent : GoStr
  referrer : GoStr
deriving DecidableEq

/-- The click table in insertion order (append-only). -/
abbrev ClickLog := List Click

/-- RedirectToLongURL from `pkg/handlers` (part_003 lines 174-223):
reserved paths get 404; the code is the path without its leading slash;
empty code gets a 302 to the root; an absent code gets 404; a present
code gets a 301 to the stored target and one click row appended. -/
def RedirectToLongURL (path userAgent referrer : GoStr) (store : Store)
    (log : ClickLog) : HResp × ClickLog :=
  if pathIsReserved path then (.notFound, log)
  else
    let code := trimPrefixGo path (gs "/")
    if code = [] then (.redirect302 (gs "/"), log)
    else
      match storeGet store code with
      | none => (.notFound, log)
      | some longURL => (.redirect301 longURL, log ++ [⟨code, userAgent, referrer⟩])

/-- One element of the stats response (`models.ClickDetail`); user agent
and referrer are `sql.NullString`, hence `Option`. -/
structure ClickDetail where
  timestamp : GoStr
  userAgent : Option GoStr
  referrer : Option GoStr
deriving DecidableEq

/-- Body of the stats response (`models.LinkStatsResponse`). -/
structure LinkStatsResponse where
  shortCode : GoStr
  totalClicks : Nat
  clicks : List ClickDetail
deriving DecidableEq

/-- GetLinkStatsHandler from `pkg/handlers/stats.go` (lines 30-55), given
the rows the SQL query returned: rows that fail to scan are skipped
(`none` entries), the rest are collected, and the total is the length of
the collected list. -/
def GetLinkStatsHandler (shortCode : GoStr) (rows : List (Option ClickDetail)) :
    LinkStatsResponse :=
  let clicks := rows.filterMap id
  ⟨shortCode, clicks.length, clicks⟩

/-- Rows produced by the stats SQL query
(`SELECT ... WHERE short_code = ? ORDER BY timestamp DESC`) on a click
log: the rows of the given code, most recent first (timestamps are
non-decreasing in insertion order), each scanning successfully; `ts`
gives the database-assigned timestamp of a row. -/
def clicksQuery (ts : Click → GoStr) (log : ClickLog) (code : GoStr) :
    List (Option ClickDetail) :=
  ((log.filter (fun c => c.shortCode == code)).reverse).map
    (fun c => some ⟨ts c, some c.userAgent, some c.referrer⟩)

/-- Phase of one in-flight custom-handle reservation: before the Redis
EXISTS check (part_003 line 107), between the check and the Redis SET
(line 154), or finished with an outcome. -/
inductive ReqPhase where
  | start
  | readyToSet
  | finished (succeeded : Bool)
deriving DecidableEq

/-- One store-touching step of the custom-handle reservation inside
`CreateShortURL`: from `start`, run the EXISTS check (taken gives the 409
outcome, free advances); from `readyToSet`, run the SET and finish with
the 200 outcome.  The pure validation steps (auth, handle shape,
expiration) touch no shared state and are assumed already passed. -/
def reserveStep (handle target : GoStr) : ReqPhase → Store → ReqPhase × Store
  | .start, st =>
      if (storeGet st handle).isSome then (.finished false, st)
      else (.readyToSet, st)
  | .readyToSet, st => (.finished true, storeSet st handle target)
  | .finished o, st => (.finished o, st)

/-- Run two concurrent reservations of the same handle under a schedule:
`true` steps the first request, `false` the second. -/
def interleave (handle target : GoStr) :
    List Bool → ReqPhase × ReqPhase × Store → ReqPhase × ReqPhase × Store
  | [], s => s
  | b :: rest, (p1, p2, st) =>
      if b then
        let (p1', st') := reserveStep handle target p1 st
        interleave handle target rest (p1', p2, st')
      else
        let (p2', st') := reserveStep handle target p2 st
        interleave handle target rest (p1, p2', st')

/-- Tail of a URI scheme after its first letter: letters, digits, plus,
minus and dot until a colon. -/
def schemeTail : GoStr → Bool
  | [] => false
  | c :: rest =>
      if c = ':' then true
      else (c.isAlpha || c.isDigit || c == '+' || c == '-' || c == '.') && schemeTail rest

/-- Modelled from the claim wording, not from the source: a URL `carries a
scheme` when it starts with a URI scheme (a letter followed by letters,
digits, plus, minus or dot, then a colon), as in RFC 3986.  The source
itself only ever tests for the two literal schemes `http://` and
`https://`; this definition exists to compare the claim against that
behaviour. -/
def claimCarriesScheme : GoStr → Bool
  | [] => false
  | c :: rest => c.isAlpha && schemeTail rest

/-- Helper: the empty part starts every list. -/
theorem hasPrefixGo_nil (s : GoStr) : hasPrefixGo s [] = true := by
  cases s <;> rfl

/-- Helper: a list always starts with the part prepended to it. -/
theorem hasPrefixGo_append_self (p s : GoStr) : hasPrefixGo (p ++ s) p = true := by
  induction p with
  | nil => simpa using hasPrefixGo_nil s
  | cons c cs ih => simp [hasPrefixGo, ih]

/-- C10: for every redirect request whose path is reserved (root, health,
test-route, favicon, an api/ or static/ prefix, or an ico/png/jpg/css/js
suffix), the handler answers 404 for every store and leaves the click log
unchanged, so the store is never consulted and no click row is appended. -/
theorem reserved_path_skips_redirect
    (path ua rf : GoStr) (store : Store) (log : ClickLog)
    (h : pathIsReserved path = true) :
    RedirectToLongURL path ua rf store log = (.notFound, log) := by
  simp [RedirectToLongURL, h]

/-- Witness for C10 at path `/health` with a store that does hold a mapping
for the exact code `health`. -/
theorem reserved_path_skips_redirect_witness :
    storeGet [(gs "health", gs "https://example.org")] (gs "health")
        = some (gs "https://example.org") ∧
    RedirectToLongURL (gs "/health") (gs "ua") (gs "r")
        [(gs "health", gs "https://example.org")] []
      = (.notFound, []) :=
  ⟨by decide,
   reserved_path_skips_redirect (gs "/health") (gs "ua") (gs "r")
     [(gs "health", gs "https://example.org")] [] (by decide)⟩

/-- C9: in every stats response the total-click count equals the length of
the returned click list; the handler computes the total from the collected
rows themselves. -/
theorem stats_total_equals_length (code : GoStr) (rows : List (Option ClickDetail)) :
    (GetLinkStatsHandler code rows).totalClicks
      = (GetLinkStatsHandler code rows).clicks.length := rfl

/-- C4: for a code with no recorded clicks the stats handler succeeds and
returns total 0 together with the empty click list. -/
theorem stats_zero_clicks_ok
    (ts : Click → GoStr) (log : ClickLog) (code : GoStr)
    (h : log.filter (fun c => c.shortCode == code) = []) :
    GetLinkStatsHandler code (clicksQuery ts log code) = ⟨code, 0, []⟩ := by
  simp [clicksQuery, h, GetLinkStatsHandler]

/-- Witness for C4: a log holding only a click for another code. -/
theorem stats_zero_clicks_ok_witness :
    GetLinkStatsHandler (gs "abc")
        (clicksQuery (fun _ => gs "2024-01-01")
          [⟨gs "other", gs "ua", gs "r"⟩] (gs "abc"))
      = ⟨gs "abc", 0, []⟩ :=
  stats_zero_clicks_ok (fun _ => gs "2024-01-01")
    [⟨gs "other", gs "ua", gs "r"⟩] (gs "abc") (by decide)

/-- C7: a redirect request for a code absent from the store answers 404 and
leaves the click log unchanged. -/
theorem redirect_unknown_code_not_found
    (path ua rf : GoStr) (store : Store) (log : ClickLog)
    (hp : hasPrefixGo path (gs "/") = true)
    (habs : storeGet store (trimPrefixGo path (gs "/")) = none) :
    RedirectToLongURL path ua rf store log = (.notFound, log) := by
  by_cases hres : pathIsReserved path = true
  · simp [RedirectToLongURL, hres]
  · cases path with
    | nil => simp [gs, hasPrefixGo] at hp
    | cons c rest =>
      have hc : c = '/' := by
        have hb : (c == '/') = true := by simpa [gs, hasPrefixGo] using hp
        exact eq_of_beq hb
      subst hc
      have htp : trimPrefixGo ('/' :: rest) (gs "/") = rest := by
        simp [trimPrefixGo, gs, hasPrefixGo]
      rw [htp] at habs
      cases rest with
      | nil => exact absurd (by decide : pathIsReserved ('/' :: []) = true) hres
      | cons d ds =>
        simp [RedirectToLongURL, hres, htp, habs]

/-- Witness for C7 at path `/nosuch` over a store holding another code. -/
theorem redirect_unknown_code_not_found_witness :
    RedirectToLongURL (gs "/nosuch") (gs "ua") (gs "r")
        [(gs "abc", gs "https://example.org")] []
      = (.notFound, []) :=
  redirect_unknown_code_not_found (gs "/nosuch") (gs "ua") (gs "r")
    [(gs "abc", gs "https://example.org")] [] (by decide) (by decide)

/-- Counterexample to C2 as stated: the code `a.css` is present in the
store, yet its redirect request answers 404 and appends no click row,
because the path falls into the reserved-suffix filter that runs before
the store lookup. -/
theorem redirect_known_reserved_code_not_found :
    storeGet [(gs "a.css", gs "https://x.org")] (gs "a.css") = some (gs "https://x.org") ∧
    RedirectToLongURL (gs "/a.css") (gs "ua") (gs "r")
        [(gs "a.css", gs "https://x.org")] []
      = (.notFound, []) := by
  exact ⟨by decide, by decide⟩

/-- C2 amended: for every code present in the store whose request path is
not caught by the reserved-path filter, the redirect answers 301 to
exactly the stored target and appends exactly one click row for that
code, after every previously recorded row. -/
theorem redirect_known_code_moved_permanently
    (path ua rf code target : GoStr) (store : Store) (log : ClickLog)
    (hp : hasPrefixGo path (gs "/") = true)
    (hres : pathIsReserved path = false)
    (hcode : trimPrefixGo path (gs "/") = code)
    (hget : storeGet store code = some target) :
    RedirectToLongURL path ua rf store log
      = (.redirect301 target, log ++ [⟨code, ua, rf⟩]) := by
  cases path with
  | nil => simp [gs, hasPrefixGo] at hp
  | cons c rest =>
    have hc : c = '/' := by
      have hb : (c == '/') = true := by simpa [gs, hasPrefixGo] using hp
      exact eq_of_beq hb
    subst hc
    have htp : trimPrefixGo ('/' :: rest) (gs "/") = rest := by
      simp [trimPrefixGo, gs, hasPrefixGo]
    rw [htp] at hcode
    subst hcode
    cases rest with
    | nil => exact absurd hres (by decide)
    | cons d ds =>
      simp [RedirectToLongURL, hres, htp, hget]

/-- Witness for the amended C2 at code `abc`. -/
theorem redirect_known_code_moved_permanently_witness :
    RedirectToLongURL (gs "/abc") (gs "ua") (gs "r")
        [(gs "abc", gs "https://example.org")]
        [⟨gs "abc", gs "older", gs "older-ref"⟩]
      = (.redirect301 (gs "https://example.org"),
         [⟨gs "abc", gs "older", gs "older-ref"⟩, ⟨gs "abc", gs "ua", gs "r"⟩]) :=
  redirect_known_code_moved_permanently (gs "/abc") (gs "ua") (gs "r")
    (gs "abc") (gs "https://example.org")
    [(gs "abc", gs "https://example.org")]
    [⟨gs "abc", gs "older", gs "older-ref"⟩]
    (by decide) (by decide) (by decide) (by decide)

/-- Counterexample to C5 as stated: `ftp://example.com` carries a scheme,
yet normalization does not store it unchanged; the code only recognizes
the two literal schemes `http://` and `https://` and prepends `https://`
to everything else. -/
theorem normalize_changes_non_http_scheme :
    claimCarriesScheme (gs "ftp://example.com") = true ∧
    NormalizeURL (gs "ftp://example.com") ≠ gs "ftp://example.com" := by
  exact ⟨by decide, by decide⟩

/-- C5 amended: when the whitespace-trimmed URL starts with neither
`http://` nor `https://`, the stored target starts with `https://`; a URL
without surrounding whitespace that starts with `http://` or `https://`
is stored unchanged. -/
theorem normalize_defaults_to_https (url : GoStr) (_hne : url ≠ []) :
    (hasPrefixGo (trimSpaceGo url) (gs "http://") = false →
     hasPrefixGo (trimSpaceGo url) (gs "https://") = false →
     hasPrefixGo (NormalizeURL url) (gs "https://") = true) ∧
    (trimSpaceGo url = url →
     (hasPrefixGo url (gs "http://") = true ∨ hasPrefixGo url (gs "https://") = true) →
     NormalizeURL url = url) := by
  constructor
  · intro h1 h2
    simp [NormalizeURL, h1, h2, hasPrefixGo_append_self]
  · intro ht hor
    rcases hor with h | h <;> simp [NormalizeURL, ht, h]

/-- Witness for the amended C5 at `example.com` (no scheme). -/
theorem normalize_defaults_to_https_witness :
    hasPrefixGo (NormalizeURL (gs "example.com")) (gs "https://") = true :=
  (normalize_defaults_to_https (gs "example.com") (by decide)).1
    (by decide) (by decide)

/-- C6: a creation request with a non-empty custom handle whose auth code
is empty or matches no configured entry is answered 401 (one of the two
unauthorized messages of the handler) and the store is left unchanged: no
code is reserved. -/
theorem custom_handle_requires_valid_auth
    (cfg : AppConfig) (generated : GoStr) (req : URLRequest) (store : Store)
    (hurl : req.longURL ≠ [])
    (hhandle : req.customHandle ≠ [])
    (hauth : req.authCode = [] ∨ containsGo cfg.validAuthCodes req.authCode = false) :
    ((CreateShortURL cfg generated req store).resp
        = .unauthorized (gs "Authorization code required for custom handle.") ∨
     (CreateShortURL cfg generated req store).resp
        = .unauthorized (gs "Invalid authorization code.")) ∧
    (CreateShortURL cfg generated req store).store = store := by
  rcases hauth with h | h
  · simp [CreateShortURL, hurl, hhandle, h]
  · by_cases he : req.authCode = []
    · simp [CreateShortURL, hurl, hhandle, he]
    · simp [CreateShortURL, hurl, hhandle, he, h]

/-- Witness for C6: handle `myhandle` with an auth code outside the
configured list. -/
theorem custom_handle_requires_valid_auth_witness :
    ((CreateShortURL ⟨gs "http", gs "localhost:3000", [gs "secret123"]⟩ (gs "g1")
        ⟨gs "example.com", gs "myhandle", gs "wrong", none⟩ []).resp
        = .unauthorized (gs "Authorization code required for custom handle.") ∨
     (CreateShortURL ⟨gs "http", gs "localhost:3000", [gs "secret123"]⟩ (gs "g1")
        ⟨gs "example.com", gs "myhandle", gs "wrong", none⟩ []).resp
        = .unauthorized (gs "Invalid authorization code.")) ∧
    (CreateShortURL ⟨gs "http", gs "localhost:3000", [gs "secret123"]⟩ (gs "g1")
        ⟨gs "example.com", gs "myhandle", gs "wrong", none⟩ []).store = [] :=
  custom_handle_requires_valid_auth
    ⟨gs "http", gs "localhost:3000", [gs "secret123"]⟩ (gs "g1")
    ⟨gs "example.com", gs "myhandle", gs "wrong", none⟩ []
    (by decide) (by decide) (Or.inr (by decide))

/-- Counterexample to C3 as stated: a creation request with the valid auth
code `secret123` and expiration days 5000 (outside [0, 3650]) but no
custom handle succeeds with 200; the expiration value is only examined
inside the custom-handle branch, so it is silently ignored here and the
default TTL (365 days = 8760 hours) is used. -/
theorem expiration_ignored_without_custom_handle :
    containsGo [gs "secret123"] (gs "secret123") = true ∧
    ¬ ((5000 : Int) ≤ MaxExpirationDays) ∧
    CreateShortURL ⟨gs "http", gs "localhost:3000", [gs "secret123"]⟩ (gs "genCode1")
        ⟨gs "example.com", [], gs "secret123", some 5000⟩ []
      = ⟨.ok (gs "http://localhost:3000/genCode1"),
          [(gs "genCode1", gs "https://example.com")], 8760⟩ := by
  refine ⟨by decide, by decide, by decide⟩

/-- C3 amended: a creation request with a valid auth code, a present custom
handle of valid shape that is still available, and expiration days outside
[0, 3650] is answered 400 and reserves nothing.  Without a custom handle
the expiration value is ignored and the default expiration applies. -/
theorem invalid_expiration_rejected_for_custom_handle
    (cfg : AppConfig) (generated : GoStr) (req : URLRequest) (store : Store) (d : Int)
    (hurl : req.longURL ≠ [])
    (hhandle : req.customHandle ≠ [])
    (hauthne : req.authCode ≠ [])
    (hauth : containsGo cfg.validAuthCodes req.authCode = true)
    (hlen1 : 3 ≤ req.customHandle.length) (hlen2 : req.customHandle.length ≤ 30)
    (hfree : storeGet store req.customHandle = none)
    (hdays : req.expirationDays = some d)
    (hout : d < 0 ∨ 3650 < d) :
    (CreateShortURL cfg generated req store).resp
      = .badRequest (gs "Expiration must be 0 (for no expiry) or between 1 and 3650 days.") ∧
    (CreateShortURL cfg generated req store).store = store := by
  have hne0 : ¬ (d = NoExpirationValue) := by
    simp only [NoExpirationValue]
    omega
  have hnr : ¬ (0 < d ∧ d ≤ MaxExpirationDays) := by
    simp only [MaxExpirationDays]
    omega
  simp [CreateShortURL, hurl, hhandle, hauthne, hauth, hdays, hfree, hne0, hnr,
    Nat.not_lt.mpr hlen1, Nat.not_lt.mpr hlen2]

/-- Witness for the amended C3: handle `myhandle`, valid auth, 5000 days. -/
theorem invalid_expiration_rejected_for_custom_handle_witness :
    (CreateShortURL ⟨gs "http", gs "localhost:3000", [gs "secret123"]⟩ (gs "g1")
        ⟨gs "example.com", gs "myhandle", gs "secret123", some 5000⟩ []).resp
      = .badRequest (gs "Expiration must be 0 (for no expiry) or between 1 and 3650 days.") ∧
    (CreateShortURL ⟨gs "http", gs "localhost:3000", [gs "secret123"]⟩ (gs "g1")
        ⟨gs "example.com", gs "myhandle", gs "secret123", some 5000⟩ []).store = [] :=
  invalid_expiration_rejected_for_custom_handle
    ⟨gs "http", gs "localhost:3000", [gs "secret123"]⟩ (gs "g1")
    ⟨gs "example.com", gs "myhandle", gs "secret123", some 5000⟩ [] 5000
    (by decide) (by decide) (by decide) (by decide) (by decide) (by decide)
    (by decide) rfl (Or.inr (by decide))

/-- Helper: a custom-handle creation whose checks all pass reserves the
handle with the normalized target and responds 200 with the short URL. -/
theorem create_custom_success
    (cfg : AppConfig) (generated : GoStr) (req : URLRequest) (store : Store)
    (hurl : req.longURL ≠ [])
    (hhandle : req.customHandle ≠ [])
    (hauthne : req.authCode ≠ [])
    (hauth : containsGo cfg.validAuthCodes req.authCode = true)
    (hlen1 : 3 ≤ req.customHandle.length) (hlen2 : req.customHandle.length ≤ 30)
    (hfree : storeGet store req.customHandle = none)
    (hexp : req.expirationDays = none ∨
            ∃ d, req.expirationDays = some d ∧ (d = 0 ∨ (0 < d ∧ d ≤ 3650))) :
    ∃ ttl, CreateShortURL cfg generated req store
      = ⟨.ok (shortURLFor cfg req.customHandle),
          storeSet store req.customHandle (NormalizeURL req.longURL), ttl⟩ := by
  rcases hexp with h0 | ⟨d, hd, hd0 | hdr⟩
  · exact ⟨DefaultExpirationDays * 24,
      by simp [CreateShortURL, hurl, hhandle, hauthne, hauth, h0, hfree,
        Nat.not_lt.mpr hlen1, Nat.not_lt.mpr hlen2]⟩
  · have hz : d = NoExpirationValue := by simp only [NoExpirationValue]; omega
    exact ⟨0, by simp [CreateShortURL, hurl, hhandle, hauthne, hauth, hd, hz, hfree,
      Nat.not_lt.mpr hlen1, Nat.not_lt.mpr hlen2]⟩
  · have hnz : ¬ (d = NoExpirationValue) := by simp only [NoExpirationValue]; omega
    have hr : 0 < d ∧ d ≤ MaxExpirationDays := by
      simp only [MaxExpirationDays]; omega
    exact ⟨d * 24, by simp [CreateShortURL, hurl, hhandle, hauthne, hauth, hd, hnz, hr, hfree,
      Nat.not_lt.mpr hlen1, Nat.not_lt.mpr hlen2]⟩

/-- Counterexample to C1 as stated: an interleaving of two reservations of
the initially free handle `myhandle` in which both EXISTS checks run
before either SET (schedule: first checks, second checks, first sets,
second sets) lets both requests finish successfully; the availability
check and the write are separate store operations, so concurrent creation
requests for the same handle can both succeed. -/
theorem interleaved_reservation_both_succeed :
    storeGet [] (gs "myhandle") = none ∧
    interleave (gs "myhandle") (gs "https://example.com")
        [true, false, true, false] (.start, .start, [])
      = (.finished true, .finished true,
         [(gs "myhandle", gs "https://example.com"),
          (gs "myhandle", gs "https://example.com")]) := by
  exact ⟨rfl, by decide⟩

/-- C1 amended: when the two creation requests for the same free custom
handle execute serially (the first completes before the second starts),
exactly one succeeds with the short URL response and the other receives
the 409 conflict; under concurrent interleaving both can succeed, because
the availability check and the reserving write are not one atomic store
operation. -/
theorem serial_reservation_exactly_one_wins
    (cfg : AppConfig) (g1 g2 : GoStr) (r1 r2 : URLRequest) (store : Store)
    (hurl1 : r1.longURL ≠ []) (hurl2 : r2.longURL ≠ [])
    (hh : r1.customHandle ≠ [])
    (hsame : r2.customHandle = r1.customHandle)
    (ha1ne : r1.authCode ≠ []) (ha2ne : r2.authCode ≠ [])
    (ha1 : containsGo cfg.validAuthCodes r1.authCode = true)
    (ha2 : containsGo cfg.validAuthCodes r2.authCode = true)
    (hlen1 : 3 ≤ r1.customHandle.length) (hlen2 : r1.customHandle.length ≤ 30)
    (hfree : storeGet store r1.customHandle = none)
    (hexp : r1.expirationDays = none ∨
            ∃ d, r1.expirationDays = some d ∧ (d = 0 ∨ (0 < d ∧ d ≤ 3650))) :
    (CreateShortURL cfg g1 r1 store).resp = .ok (shortURLFor cfg r1.customHandle) ∧
    (CreateShortURL cfg g2 r2 (CreateShortURL cfg g1 r1 store).store).resp
      = .conflict (conflictMsg r1.customHandle) := by
  obtain ⟨ttl, hres1⟩ := create_custom_success cfg g1 r1 store
    hurl1 hh ha1ne ha1 hlen1 hlen2 hfree hexp
  refine ⟨by rw [hres1], ?_⟩
  rw [hres1]
  have htaken : (storeGet (storeSet store r1.customHandle (NormalizeURL r1.longURL))
      r2.customHandle).isSome = true := by
    simp [storeSet, storeGet, hsame]
  simp [CreateShortURL, hurl2, hsame, hh, ha2ne, ha2, htaken,
    Nat.not_lt.mpr hlen1, Nat.not_lt.mpr hlen2, storeSet, storeGet]

/-- Witness for the amended C1: two identical requests for the free handle
`myhandle` run one after the other; the first gets 200, the second 409. -/
theorem serial_reservation_exactly_one_wins_witness :
    (CreateShortURL ⟨gs "http", gs "localhost:3000", [gs "secret123"]⟩ (gs "g1")
        ⟨gs "example.com", gs "myhandle", gs "secret123", none⟩ []).resp
      = .ok (shortURLFor ⟨gs "http", gs "localhost:3000", [gs "secret123"]⟩ (gs "myhandle")) ∧
    (CreateShortURL ⟨gs "http", gs "localhost:3000", [gs "secret123"]⟩ (gs "g2")
        ⟨gs "example.com", gs "myhandle", gs "secret123", none⟩
        (CreateShortURL ⟨gs "http", gs "localhost:3000", [gs "secret123"]⟩ (gs "g1")
          ⟨gs "example.com", gs "myhandle", gs "secret123", none⟩ []).store).resp
      = .conflict (conflictMsg (gs "myhandle")) :=
  serial_reservation_exactly_one_wins
    ⟨gs "http", gs "localhost:3000", [gs "secret123"]⟩ (gs "g1") (gs "g2")
    ⟨gs "example.com", gs "myhandle", gs "secret123", none⟩
    ⟨gs "example.com", gs "myhandle", gs "secret123", none⟩ []
    (by decide) (by decide) (by decide) rfl (by decide) (by decide)
    (by decide) (by decide) (by decide) (by decide) (by decide) (Or.inl rfl)

/-- C8: shortening `example.com` without a custom handle and then
requesting the returned code redirects to exactly `https://example.com`;
stated for every generator output that is non-empty and not caught by the
reserved-path filter (shortid codes are drawn from an URL-safe alphabet
without dot or slash). -/
theorem shorten_then_redirect_round_trip
    (cfg : AppConfig) (store : Store) (log : ClickLog) (ua rf g : GoStr)
    (hg : g ≠ [])
    (hres : pathIsReserved (gs "/" ++ g) = false) :
    (CreateShortURL cfg g ⟨gs "example.com", [], [], none⟩ store).resp
        = .ok (shortURLFor cfg g) ∧
    RedirectToLongURL (gs "/" ++ g) ua rf
        (CreateShortURL cfg g ⟨gs "example.com", [], [], none⟩ store).store log
      = (.redirect301 (gs "https://example.com"), log ++ [⟨g, ua, rf⟩]) := by
  have hnorm : NormalizeURL (gs "example.com") = gs "https://example.com" := by decide
  have hne2 : (gs "example.com" : GoStr) ≠ [] := by decide
  have hcreate : CreateShortURL cfg g ⟨gs "example.com", [], [], none⟩ store
      = ⟨.ok (shortURLFor cfg g), storeSet store g (gs "https://example.com"),
          DefaultExpirationDays * 24⟩ := by
    simp [CreateShortURL, hnorm, hne2]
  have hres2 : pathIsReserved ('/' :: g) = false := hres
  have htp : trimPrefixGo ('/' :: g) (gs "/") = g := by
    simp [trimPrefixGo, gs, hasPrefixGo]
  have hget : storeGet (storeSet store g (gs "https://example.com")) g
      = some (gs "https://example.com") := by
    simp [storeSet, storeGet]
  refine ⟨by rw [hcreate], ?_⟩
  rw [hcreate]
  show RedirectToLongURL ('/' :: g) ua rf
    (storeSet store g (gs "https://example.com")) log = _
  simp [RedirectToLongURL, hres2, htp, hget, hg]

/-- Witness for C8 at generated code `abc123`. -/
theorem shorten_then_redirect_round_trip_witness :
    (CreateShortURL ⟨gs "http", gs "localhost:3000", []⟩ (gs "abc123")
        ⟨gs "example.com", [], [], none⟩ []).resp
        = .ok (shortURLFor ⟨gs "http", gs "localhost:3000", []⟩ (gs "abc123")) ∧
    RedirectToLongURL (gs "/" ++ gs "abc123") (gs "ua") (gs "r")
        (CreateShortURL ⟨gs "http", gs "localhost:3000", []⟩ (gs "abc123")
          ⟨gs "example.com", [], [], none⟩ []).store []
      = (.redirect301 (gs "https://example.com"), [⟨gs "abc123", gs "ua", gs "r"⟩]) :=
  shorten_then_redirect_round_trip
    ⟨gs "http", gs "localhost:3000", []⟩ [] [] (gs "ua") (gs "r") (gs "abc123")
    (by decide) (by decide)
